import Mathlib

/-!
Shallow embedding of the workflow engine of `domain/workflows/definitions.py`
and `domain/workflows/errors.py` (repository `yulqen/django-coreagenda`).

Modelling conventions:
* Python `dict` data bags become association lists (`Data`) with Python's
  `dict.update` / key-lookup semantics (`dictUpdate` / `dictGet`); keys of a
  genuine Python dict are unique, which theorems hypothesise where it matters.
* `datetime` timestamps become `Nat` (only their ordering is ever used).
  `datetime.utcnow()` and `uuid.uuid4()` are injected as explicit arguments
  (`now`, `new_id`) of `save_checkpoint`, following the source call sites.
* `copy.deepcopy` is the identity in a value-semantics embedding; the frame
  theorems below express the no-aliasing consequences.
* Exception-raising mutating methods become functions returning
  `Option WorkflowError × WorkflowInstance`: the second component is the
  instance as it stands when the method returns or raises, translated
  statement by statement from the Python bodies.
* The event `timestamp` field stamped by `BaseEvent` is omitted: no claim
  refers to event timestamps, and no engine branch reads them.
* Python truthiness of `str | None` (`if self.active_checkpoint_id:` in
  `rollback`) is translated explicitly: `none` and `some ""` are both falsy.
-/

namespace Workflows

/-- Values stored in a workflow data bag or a command payload. -/
inductive Value where
  | vStr : String → Value
  | vInt : Int → Value
  | vBool : Bool → Value
deriving DecidableEq, Repr

/-- A Python `dict` data bag, as an association list (insertion-ordered,
as Python dicts are). -/
abbrev Data := List (String × Value)

/-- Python `d[k]` / `d.get(k)`: the value at the first matching key. -/
def dictGet : Data → String → Option Value
  | [], _ => none
  | (k₀, v₀) :: rest, k => if k₀ = k then some v₀ else dictGet rest k

/-- Write one key of a Python dict: replace the value in place if the key is
present, append the pair otherwise (Python dict insertion-order semantics). -/
def dictInsert : Data → String → Value → Data
  | [], k, v => [(k, v)]
  | (k₀, v₀) :: rest, k, v =>
      if k₀ = k then (k, v) :: rest else (k₀, v₀) :: dictInsert rest k v

/-- Python `d.update(p)`: shallow merge of `p` into `d`, payload values
winning key by key. -/
def dictUpdate (d p : Data) : Data :=
  p.foldl (fun acc kv => dictInsert acc kv.1 kv.2) d

/-- `errors.py`: `WorkflowDefinitionValidationError`, `DomainException` and
its subclass `NoAvailableCheckpoint`, each carrying a message. -/
inductive WorkflowError where
  | validationError : String → WorkflowError
  | domainException : String → WorkflowError
  | noAvailableCheckpoint : String → WorkflowError
deriving DecidableEq, Repr

/-- `Actor` frozen dataclass. -/
structure Actor where
  name : String
deriving DecidableEq, Repr

/-- The view of a `WorkflowInstance` that a guard predicate receives
(the guard signature in the source takes the instance; the snapshot view
breaks the type-level cycle and carries the state a guard can consult). -/
structure Snapshot where
  current_step : String
  data : Data

/-- `Transition` frozen dataclass; `guard` is an optional predicate. -/
structure Transition where
  from_step : String
  to_step : String
  command : String
  guard : Option (Snapshot → Data → Actor → Bool) := none

/-- `Checkpoint` dataclass. -/
structure Checkpoint where
  id : String
  label : String
  step : String
  data : Data
  created_at : Nat
deriving DecidableEq, Repr, Inhabited

/-- `WorkflowDefinition` frozen dataclass; the Python `set[str]` of steps
becomes a `Finset String`. -/
structure WorkflowDefinition where
  name : String
  initial_step : String
  steps : Finset String
  transitions : List Transition

/-- `WorkflowDefinition.commands`. -/
def WorkflowDefinition.commands (d : WorkflowDefinition) : List String :=
  d.transitions.map (fun t => t.command)

/-- `WorkflowDefinition.find_transition`: first transition in declaration
order matching `(step, command)`, else `None`. -/
def WorkflowDefinition.find_transition (d : WorkflowDefinition)
    (step command : String) : Option Transition :=
  d.transitions.find? (fun t => t.from_step = step && t.command = command)

/-- `WorkflowDefinition.is_valid`: returns `True` or raises
`WorkflowDefinitionValidationError`, with the source's check order and
messages. -/
def WorkflowDefinition.is_valid (d : WorkflowDefinition) :
    Except WorkflowError Bool :=
  if d.transitions.isEmpty then
    .error (.validationError "A definition requires a list of Transition objects.")
  else if d.steps = ∅ then
    .error (.validationError "A definition requires a list of steps.")
  else if d.initial_step ∉ d.steps then
    .error (.validationError "The initial_step must existing in the list of steps.")
  else
    .ok true

/-- History events (`CommandApplied`, `CheckpointSaved`, `StateRestored`);
the `BaseEvent.timestamp` field is omitted (see the module docstring). -/
inductive HistoryEvent where
  | commandApplied : (from_step to_step command : String) → Actor → Data → HistoryEvent
  | checkpointSaved : Checkpoint → Actor → HistoryEvent
  | stateRestored : (checkpoint_id : String) → Actor → (direction : String) → HistoryEvent

/-- `WorkflowInstance` dataclass. -/
structure WorkflowInstance where
  id : String
  name : String
  definition : WorkflowDefinition
  current_step : String
  data : Data
  history : List HistoryEvent
  checkpoints : List Checkpoint
  active_checkpoint_id : Option String := none

/-- `WorkflowInstance.apply_command`.  Mirrors the body: transition lookup,
`DomainException` on a miss (note: the guard field is never consulted — the
source holds only a `# TODO implement guard` comment at this point), then
`data.update(payload)`, step change, one `CommandApplied` event, and
`active_checkpoint_id = None`. -/
def WorkflowInstance.apply_command (inst : WorkflowInstance)
    (command : String) (payload : Data) (actor : Actor) :
    Option WorkflowError × WorkflowInstance :=
  match inst.definition.find_transition inst.current_step command with
  | none =>
      (some (.domainException
        ("Invalid command \x27" ++ command ++ "\x27 for step \x27"
          ++ inst.current_step ++ "\x27")), inst)
  | some transition =>
      let from_step := inst.current_step
      (none, { inst with
        data := dictUpdate inst.data payload
        current_step := transition.to_step
        history := inst.history ++
          [.commandApplied from_step transition.to_step command actor payload]
        active_checkpoint_id := none })

/-- `WorkflowInstance.save_checkpoint`; `new_id` stands for `uuid.uuid4()`
and `now` for `datetime.utcnow()`, and `copy.deepcopy(self.data)` is value
copying here.  Returns the new checkpoint together with the updated
instance. -/
def WorkflowInstance.save_checkpoint (inst : WorkflowInstance)
    (label : String) (actor : Actor) (new_id : String) (now : Nat) :
    Checkpoint × WorkflowInstance :=
  let cp : Checkpoint :=
    { id := new_id, label := label, step := inst.current_step
      data := inst.data, created_at := now }
  (cp, { inst with
    checkpoints := inst.checkpoints ++ [cp]
    active_checkpoint_id := some cp.id
    history := inst.history ++ [.checkpointSaved cp actor] })

/-- Comparison key used by `_get_sorted_checkpoints` (`key=lambda cp:
cp.created_at` under Python's stable `sorted`). -/
def cpLe (c₁ c₂ : Checkpoint) : Prop := c₁.created_at ≤ c₂.created_at

instance : DecidableRel cpLe := fun c₁ c₂ => Nat.decLe c₁.created_at c₂.created_at

instance : IsTotal Checkpoint cpLe := ⟨fun c₁ c₂ => Nat.le_total c₁.created_at c₂.created_at⟩

instance : IsTrans Checkpoint cpLe := ⟨fun _ _ _ => Nat.le_trans⟩

instance : IsRefl Checkpoint cpLe := ⟨fun c => Nat.le_refl c.created_at⟩

/-- `WorkflowInstance._get_sorted_checkpoints`: checkpoints in `created_at`
order under a stable sort (Python's `sorted` is stable; so is insertion
sort). -/
def WorkflowInstance.get_sorted_checkpoints (inst : WorkflowInstance) :
    List Checkpoint :=
  inst.checkpoints.insertionSort cpLe

/-- Position of the first checkpoint carrying the given id
(`[cp.id for cp in sorted_cps].index(...)`, `None` for `ValueError`). -/
def idxOfId (aid : String) : List Checkpoint → Option Nat
  | [] => none
  | cp :: rest =>
      if cp.id = aid then some 0 else (idxOfId aid rest).map (· + 1)

/-- `WorkflowInstance.rollback`.  Note the truthiness test
`if self.active_checkpoint_id:` — an active id of `None` *or* the empty
string selects the live branch. -/
def WorkflowInstance.rollback (inst : WorkflowInstance) (actor : Actor) :
    Option WorkflowError × WorkflowInstance :=
  let sorted_cps := inst.get_sorted_checkpoints
  if sorted_cps = [] then
    (some (.noAvailableCheckpoint "Cannot rollback: no checkpoints exist."), inst)
  else
    let idxResult : Except WorkflowError Nat :=
      match inst.active_checkpoint_id with
      | some aid =>
          if aid = "" then .ok sorted_cps.length
          else
            match idxOfId aid sorted_cps with
            | some i => .ok i
            | none => .error (.domainException
                ("Active checkpoint ID \x27" ++ aid ++ "\x27 not found."))
      | none => .ok sorted_cps.length
    match idxResult with
    | .error e => (some e, inst)
    | .ok current_index =>
        if current_index = 0 then
          (some (.noAvailableCheckpoint
            "Cannot rollback: already at the earliest checkpoint."), inst)
        else
          let target := sorted_cps.getD (current_index - 1) default
          (none, { inst with
            current_step := target.step
            data := target.data
            active_checkpoint_id := some target.id
            history := inst.history ++ [.stateRestored target.id actor "rollback"] })

/-- `WorkflowInstance.rollforward`.  Here the source tests
`if self.active_checkpoint_id is None:`, so only `None` is live. -/
def WorkflowInstance.rollforward (inst : WorkflowInstance) (actor : Actor) :
    Option WorkflowError × WorkflowInstance :=
  match inst.active_checkpoint_id with
  | none =>
      (some (.noAvailableCheckpoint
        "Cannot rollforward: current state is live, not at a checkpoint."), inst)
  | some aid =>
      let sorted_cps := inst.get_sorted_checkpoints
      if sorted_cps = [] then
        (some (.noAvailableCheckpoint "Cannot rollforward: no checkpoints exist."), inst)
      else
        match idxOfId aid sorted_cps with
        | none =>
            (some (.domainException
              ("Active checkpoint ID \x27" ++ aid ++ "\x27 not found.")), inst)
        | some current_index =>
            if current_index ≥ sorted_cps.length - 1 then
              (some (.noAvailableCheckpoint
                "Cannot rollforward: already at the latest checkpoint."), inst)
            else
              let target := sorted_cps.getD (current_index + 1) default
              (none, { inst with
                current_step := target.step
                data := target.data
                active_checkpoint_id := some target.id
                history := inst.history ++
                  [.stateRestored target.id actor "rollforward"] })

/-- One engine operation, with the injected id and clock arguments of
`save_checkpoint` carried in the constructor. -/
inductive Op where
  | cmd : String → Data → Actor → Op
  | save : String → Actor → String → Nat → Op
  | roll : Actor → Op
  | rollf : Actor → Op

/-- Run a single operation. -/
def runOp (inst : WorkflowInstance) : Op → Option WorkflowError × WorkflowInstance
  | .cmd c p a => inst.apply_command c p a
  | .save l a i t => (none, (inst.save_checkpoint l a i t).2)
  | .roll a => inst.rollback a
  | .rollf a => inst.rollforward a

/-- Run a sequence of operations, stopping at the first failure. -/
def runOps (inst : WorkflowInstance) : List Op → Option WorkflowError × WorkflowInstance
  | [] => (none, inst)
  | op :: rest =>
      match runOp inst op with
      | (none, inst') => runOps inst' rest
      | (some e, inst') => (some e, inst')

/-! Concrete fixtures used by the theorems below. -/

/-- A valid linear definition in the shape of the engine's test flow. -/
def exampleDef : WorkflowDefinition :=
  { name := "example", initial_step := "a", steps := {"a", "b", "c"},
    transitions := [ { from_step := "a", to_step := "b", command := "go" },
                     { from_step := "b", to_step := "c", command := "fin" } ] }

/-- A fresh instance of `exampleDef` in its initial step. -/
def exampleInst : WorkflowInstance :=
  { id := "i1", name := "inst", definition := exampleDef, current_step := "a",
    data := [("k", .vInt 1)], history := [], checkpoints := [] }

/-- A definition whose only transition carries an always-false guard. -/
def guardedDef : WorkflowDefinition :=
  { name := "guarded", initial_step := "a", steps := {"a", "b"},
    transitions := [ { from_step := "a", to_step := "b", command := "go",
                       guard := some (fun _ _ _ => false) } ] }

/-- A fresh instance of `guardedDef`. -/
def guardedInst : WorkflowInstance :=
  { id := "g1", name := "g", definition := guardedDef, current_step := "a",
    data := [], history := [], checkpoints := [] }

/-- A definition that names a `to_step` outside its `steps` set. -/
def badDef : WorkflowDefinition :=
  { name := "bad", initial_step := "a", steps := {"a"},
    transitions := [ { from_step := "a", to_step := "b", command := "go" } ] }

/-- A fresh instance of `badDef`. -/
def badInst : WorkflowInstance :=
  { id := "b1", name := "bad inst", definition := badDef, current_step := "a",
    data := [], history := [], checkpoints := [] }

/-- C1: the claim says `apply_command` evaluates a set guard and fails with
`GuardFailed` when it returns false, leaving the instance unchanged.  The
source never consults the guard (`# TODO implement guard`; no `GuardFailed`
exists in `errors.py`): on a transition whose guard constantly returns
false, `apply_command` succeeds and moves the step anyway. -/
theorem C1_guard_not_enforced :
    ∃ t, guardedDef.find_transition "a" "go" = some t ∧
      (∀ g s p a, t.guard = some g → g s p a = false) ∧
      (guardedInst.apply_command "go" [] ⟨"alice"⟩).1 = none ∧
      (guardedInst.apply_command "go" [] ⟨"alice"⟩).2.current_step = "b" ∧
      (guardedInst.apply_command "go" [] ⟨"alice"⟩).2.history.length =
        guardedInst.history.length + 1 := by
  refine ⟨_, rfl, ?_, rfl, rfl, rfl⟩
  intro g s p a h
  cases h
  rfl

/-- C2 counterexample: `badDef` has a transition to a step outside `steps`,
yet `is_valid` reports it valid. -/
theorem C2_counterexample :
    badDef.is_valid = Except.ok true ∧
    badDef.transitions.all
      (fun t => decide (t.from_step ∈ badDef.steps) &&
                decide (t.to_step ∈ badDef.steps)) = false := by
  constructor
  · rfl
  · decide

/-- Characterization of the three checks `is_valid` actually performs. -/
theorem is_valid_ok_iff (d : WorkflowDefinition) :
    d.is_valid = Except.ok true ↔
      (d.transitions ≠ [] ∧ d.steps ≠ ∅ ∧ d.initial_step ∈ d.steps) := by
  unfold WorkflowDefinition.is_valid
  split_ifs with h1 h2 h3 <;>
    simp_all [List.isEmpty_iff]

/-- C2 (amended): eager validation checks only that `transitions` is
non-empty, `steps` is non-empty and `initial_step ∈ steps`; transition
endpoint membership is not checked, so `is_valid` reports a definition
valid exactly when those three conditions hold, endpoints regardless. -/
theorem C2_is_valid_characterization (d : WorkflowDefinition) :
    d.is_valid = Except.ok true ↔
      (d.transitions ≠ [] ∧ d.steps ≠ ∅ ∧ d.initial_step ∈ d.steps) :=
  is_valid_ok_iff d

/-- Lookup after a single-key write. -/
theorem dictGet_dictInsert (d : Data) (k k' : String) (v : Value) :
    dictGet (dictInsert d k v) k' = if k = k' then some v else dictGet d k' := by
  induction d with
  | nil => simp [dictInsert, dictGet]
  | cons kv rest ih =>
      obtain ⟨k₀, v₀⟩ := kv
      by_cases h0 : k₀ = k
      · subst h0
        simp only [dictInsert, if_pos rfl, dictGet]
        split_ifs <;> simp_all
      · simp only [dictInsert, if_neg h0, dictGet, ih]
        split_ifs <;> simp_all

/-- A key absent from an association list looks up to `none`. -/
theorem dictGet_eq_none_of_not_mem (l : Data) (k : String)
    (h : k ∉ l.map Prod.fst) : dictGet l k = none := by
  induction l with
  | nil => rfl
  | cons kv rest ih =>
      simp only [List.map_cons, List.mem_cons] at h
      push_neg at h
      rw [dictGet, if_neg (fun hh => h.1 hh.symm)]
      exact ih h.2

/-- Shallow-merge characterization of `dictUpdate`: the payload value wins
key by key, other keys read from the base dict. -/
theorem dictGet_dictUpdate (p : Data) (hp : (p.map Prod.fst).Nodup)
    (d : Data) (k : String) :
    dictGet (dictUpdate d p) k =
      match dictGet p k with
      | some v => some v
      | none => dictGet d k := by
  induction p generalizing d with
  | nil => simp [dictUpdate, dictGet]
  | cons kv rest ih =>
      obtain ⟨k₀, v₀⟩ := kv
      simp only [List.map_cons, List.nodup_cons] at hp
      have hstep : dictUpdate d ((k₀, v₀) :: rest) =
          dictUpdate (dictInsert d k₀ v₀) rest := rfl
      rw [hstep, ih hp.2]
      by_cases h : k₀ = k
      · subst h
        have hnone : dictGet rest k₀ = none :=
          dictGet_eq_none_of_not_mem rest k₀ hp.1
        simp [dictGet, hnone, dictGet_dictInsert]
      · cases hg : dictGet rest k <;>
          simp [dictGet, h, hg, dictGet_dictInsert]

/-- Neither branch of `apply_command` touches the checkpoint list. -/
theorem apply_command_checkpoints (inst : WorkflowInstance) (c : String)
    (p : Data) (a : Actor) :
    (inst.apply_command c p a).2.checkpoints = inst.checkpoints := by
  unfold WorkflowInstance.apply_command
  cases inst.definition.find_transition inst.current_step c <;> rfl

/-- Neither branch of `apply_command` touches the definition. -/
theorem apply_command_definition (inst : WorkflowInstance) (c : String)
    (p : Data) (a : Actor) :
    (inst.apply_command c p a).2.definition = inst.definition := by
  unfold WorkflowInstance.apply_command
  cases inst.definition.find_transition inst.current_step c <;> rfl

/-- No branch of `rollback` touches the checkpoint list. -/
theorem rollback_checkpoints (inst : WorkflowInstance) (a : Actor) :
    (inst.rollback a).2.checkpoints = inst.checkpoints := by
  unfold WorkflowInstance.rollback
  dsimp only
  split
  · rfl
  · split
    · rfl
    · split <;> rfl

/-- No branch of `rollback` touches the definition. -/
theorem rollback_definition (inst : WorkflowInstance) (a : Actor) :
    (inst.rollback a).2.definition = inst.definition := by
  unfold WorkflowInstance.rollback
  dsimp only
  split
  · rfl
  · split
    · rfl
    · split <;> rfl

/-- No branch of `rollforward` touches the checkpoint list. -/
theorem rollforward_checkpoints (inst : WorkflowInstance) (a : Actor) :
    (inst.rollforward a).2.checkpoints = inst.checkpoints := by
  unfold WorkflowInstance.rollforward
  cases inst.active_checkpoint_id
  · rfl
  · dsimp only
    split
    · rfl
    · split
      · rfl
      · split <;> rfl

/-- No branch of `rollforward` touches the definition. -/
theorem rollforward_definition (inst : WorkflowInstance) (a : Actor) :
    (inst.rollforward a).2.definition = inst.definition := by
  unfold WorkflowInstance.rollforward
  cases inst.active_checkpoint_id
  · rfl
  · dsimp only
    split
    · rfl
    · split
      · rfl
      · split <;> rfl

/-- The index returned by `idxOfId` is in range. -/
theorem idxOfId_lt_length {aid : String} {l : List Checkpoint} {i : Nat}
    (h : idxOfId aid l = some i) : i < l.length := by
  induction l generalizing i with
  | nil => simp [idxOfId] at h
  | cons cp rest ih =>
      rw [idxOfId] at h
      split_ifs at h with hc
      · cases h; simp
      · rw [Option.map_eq_some'] at h
        obtain ⟨j, hj, rfl⟩ := h
        simpa [List.length_cons] using Nat.succ_lt_succ (ih hj)

/-- The checkpoint at the index returned by `idxOfId` carries the id. -/
theorem idxOfId_getD {aid : String} {l : List Checkpoint} {i : Nat}
    (h : idxOfId aid l = some i) : (l.getD i default).id = aid := by
  induction l generalizing i with
  | nil => simp [idxOfId] at h
  | cons cp rest ih =>
      rw [idxOfId] at h
      split_ifs at h with hc
      · cases h; simpa [List.getD_cons_zero] using hc
      · rw [Option.map_eq_some'] at h
        obtain ⟨j, hj, rfl⟩ := h
        simpa [List.getD_cons_succ] using ih hj

/-- A present id is found by `idxOfId`. -/
theorem idxOfId_isSome_of_mem {l : List Checkpoint} {cp : Checkpoint} {aid : String}
    (hmem : cp ∈ l) (hid : cp.id = aid) : ∃ i, idxOfId aid l = some i := by
  induction l with
  | nil => cases hmem
  | cons c rest ih =>
      rw [idxOfId]
      by_cases hc : c.id = aid
      · exact ⟨0, by rw [if_pos hc]⟩
      · rcases List.mem_cons.mp hmem with rfl | hmem'
        · exact absurd hid hc
        · obtain ⟨j, hj⟩ := ih hmem'
          exact ⟨j + 1, by rw [if_neg hc, hj]; rfl⟩

/-- An in-range `getD` is a member. -/
theorem getD_mem_of_lt {l : List Checkpoint} {i : Nat} (h : i < l.length) :
    l.getD i default ∈ l := by
  rw [List.getD_eq_getElem l default h]
  exact List.getElem_mem h

/-- Under distinct ids, `idxOfId` recovers the position of each element. -/
theorem idxOfId_getD_of_nodup {l : List Checkpoint}
    (hnod : (l.map Checkpoint.id).Nodup) {j : Nat} (hj : j < l.length) :
    idxOfId (l.getD j default).id l = some j := by
  induction l generalizing j with
  | nil => simp at hj
  | cons c rest ih =>
      simp only [List.map_cons, List.nodup_cons] at hnod
      match j with
      | 0 => rw [List.getD_cons_zero, idxOfId, if_pos rfl]
      | j + 1 =>
          have hj' : j < rest.length := by simpa using hj
          rw [List.getD_cons_succ, idxOfId]
          have hne : c.id ≠ (rest.getD j default).id := by
            intro he
            exact hnod.1 (he ▸ List.mem_map_of_mem Checkpoint.id (getD_mem_of_lt hj'))
          rw [if_neg hne, ih hnod.2 hj']
          rfl

/-- The sorted view is empty exactly when the checkpoint list is. -/
theorem get_sorted_eq_nil_iff (inst : WorkflowInstance) :
    inst.get_sorted_checkpoints = [] ↔ inst.checkpoints = [] := by
  unfold WorkflowInstance.get_sorted_checkpoints
  constructor <;> intro h
  · have := List.length_insertionSort cpLe inst.checkpoints
    rw [h] at this
    exact List.length_eq_zero.mp this.symm
  · rw [h]
    rfl

/-- Rollback on an empty checkpoint list raises `NoAvailableCheckpoint`. -/
theorem rollback_no_checkpoints {inst : WorkflowInstance} (a : Actor)
    (h : inst.checkpoints = []) :
    inst.rollback a =
      (some (.noAvailableCheckpoint "Cannot rollback: no checkpoints exist."), inst) := by
  unfold WorkflowInstance.rollback
  rw [if_pos ((get_sorted_eq_nil_iff inst).mpr h)]

/-- Rollback with a (truthy) active id sitting at sorted position `0`
raises `NoAvailableCheckpoint` and leaves the instance untouched. -/
theorem rollback_at_earliest {inst : WorkflowInstance} {aid : String} (a : Actor)
    (hact : inst.active_checkpoint_id = some aid) (hne : aid ≠ "")
    (hidx : idxOfId aid inst.get_sorted_checkpoints = some 0) :
    inst.rollback a =
      (some (.noAvailableCheckpoint
        "Cannot rollback: already at the earliest checkpoint."), inst) := by
  have hnonnil : ¬inst.get_sorted_checkpoints = [] := by
    intro he
    rw [he] at hidx
    simp [idxOfId] at hidx
  unfold WorkflowInstance.rollback
  rw [if_neg hnonnil, hact]
  dsimp only
  rw [if_neg hne, hidx]
  rfl

/-- Rollback with a (truthy) active id at sorted position `i ≠ 0` restores
the checkpoint at position `i - 1`. -/
theorem rollback_spec_found {inst : WorkflowInstance} {aid : String} {i : Nat} (a : Actor)
    (hact : inst.active_checkpoint_id = some aid) (hne : aid ≠ "")
    (hidx : idxOfId aid inst.get_sorted_checkpoints = some i) (hi : i ≠ 0) :
    inst.rollback a =
      (none, { inst with
        current_step := (inst.get_sorted_checkpoints.getD (i - 1) default).step
        data := (inst.get_sorted_checkpoints.getD (i - 1) default).data
        active_checkpoint_id := some (inst.get_sorted_checkpoints.getD (i - 1) default).id
        history := inst.history ++
          [.stateRestored (inst.get_sorted_checkpoints.getD (i - 1) default).id a
            "rollback"] }) := by
  have hnonnil : ¬inst.get_sorted_checkpoints = [] := by
    intro he
    rw [he] at hidx
    simp [idxOfId] at hidx
  unfold WorkflowInstance.rollback
  rw [if_neg hnonnil, hact]
  dsimp only
  rw [if_neg hne, hidx]
  dsimp only
  rw [if_neg hi]

/-- Rollback from the live state (no active checkpoint) restores the last
checkpoint in `created_at` order. -/
theorem rollback_spec_live {inst : WorkflowInstance} (a : Actor)
    (hact : inst.active_checkpoint_id = none)
    (hne : inst.checkpoints ≠ []) :
    inst.rollback a =
      (none, { inst with
        current_step :=
          (inst.get_sorted_checkpoints.getD
            (inst.get_sorted_checkpoints.length - 1) default).step
        data :=
          (inst.get_sorted_checkpoints.getD
            (inst.get_sorted_checkpoints.length - 1) default).data
        active_checkpoint_id :=
          some (inst.get_sorted_checkpoints.getD
            (inst.get_sorted_checkpoints.length - 1) default).id
        history := inst.history ++
          [.stateRestored
            (inst.get_sorted_checkpoints.getD
              (inst.get_sorted_checkpoints.length - 1) default).id a
            "rollback"] }) := by
  have hnonnil : ¬inst.get_sorted_checkpoints = [] :=
    fun he => hne ((get_sorted_eq_nil_iff inst).mp he)
  have hlen : inst.get_sorted_checkpoints.length ≠ 0 :=
    fun h0 => hnonnil (List.length_eq_zero.mp h0)
  unfold WorkflowInstance.rollback
  rw [if_neg hnonnil, hact]
  dsimp only
  rw [if_neg hlen]

/-- Rollforward from the live state raises `NoAvailableCheckpoint`. -/
theorem rollforward_live {inst : WorkflowInstance} (a : Actor)
    (hact : inst.active_checkpoint_id = none) :
    inst.rollforward a =
      (some (.noAvailableCheckpoint
        "Cannot rollforward: current state is live, not at a checkpoint."), inst) := by
  unfold WorkflowInstance.rollforward
  rw [hact]

/-- Rollforward with the active id at sorted position `i ≥ length - 1`
raises `NoAvailableCheckpoint` and leaves the instance untouched. -/
theorem rollforward_at_latest {inst : WorkflowInstance} {aid : String} {i : Nat} (a : Actor)
    (hact : inst.active_checkpoint_id = some aid)
    (hidx : idxOfId aid inst.get_sorted_checkpoints = some i)
    (hi : i ≥ inst.get_sorted_checkpoints.length - 1) :
    inst.rollforward a =
      (some (.noAvailableCheckpoint
        "Cannot rollforward: already at the latest checkpoint."), inst) := by
  have hnonnil : ¬inst.get_sorted_checkpoints = [] := by
    intro he
    rw [he] at hidx
    simp [idxOfId] at hidx
  unfold WorkflowInstance.rollforward
  rw [hact]
  dsimp only
  rw [if_neg hnonnil, hidx]
  dsimp only
  rw [if_pos hi]

/-- Rollforward with the active id at sorted position `i < length - 1`
restores the checkpoint at position `i + 1`. -/
theorem rollforward_spec_found {inst : WorkflowInstance} {aid : String} {i : Nat} (a : Actor)
    (hact : inst.active_checkpoint_id = some aid)
    (hidx : idxOfId aid inst.get_sorted_checkpoints = some i)
    (hi : i < inst.get_sorted_checkpoints.length - 1) :
    inst.rollforward a =
      (none, { inst with
        current_step := (inst.get_sorted_checkpoints.getD (i + 1) default).step
        data := (inst.get_sorted_checkpoints.getD (i + 1) default).data
        active_checkpoint_id := some (inst.get_sorted_checkpoints.getD (i + 1) default).id
        history := inst.history ++
          [.stateRestored (inst.get_sorted_checkpoints.getD (i + 1) default).id a
            "rollforward"] }) := by
  have hnonnil : ¬inst.get_sorted_checkpoints = [] := by
    intro he
    rw [he] at hidx
    simp [idxOfId] at hidx
  unfold WorkflowInstance.rollforward
  rw [hact]
  dsimp only
  rw [if_neg hnonnil, hidx]
  dsimp only
  rw [if_neg (Nat.not_le.mpr hi)]

/-- C6: when a transition matches `(current_step, command)` (and its guard,
if any, passes — a hypothesis the source never consults), `apply_command`
succeeds, shallow-merges the payload into the data bag with payload values
winning, moves to `to_step`, appends exactly one `CommandApplied` event
recording the pre-call step, and clears `active_checkpoint_id`. -/
theorem C6_apply_success (inst : WorkflowInstance) (command : String)
    (payload : Data) (actor : Actor) (t : Transition)
    (hfind : inst.definition.find_transition inst.current_step command = some t)
    (hguard : ∀ g, t.guard = some g →
      g ⟨inst.current_step, inst.data⟩ payload actor = true)
    (hkeys : (payload.map Prod.fst).Nodup) :
    (inst.apply_command command payload actor).1 = none ∧
    (inst.apply_command command payload actor).2.current_step = t.to_step ∧
    (inst.apply_command command payload actor).2.history =
      inst.history ++
        [.commandApplied inst.current_step t.to_step command actor payload] ∧
    (inst.apply_command command payload actor).2.active_checkpoint_id = none ∧
    ∀ k, dictGet (inst.apply_command command payload actor).2.data k =
      match dictGet payload k with
      | some v => some v
      | none => dictGet inst.data k := by
  unfold WorkflowInstance.apply_command
  rw [hfind]
  exact ⟨rfl, rfl, rfl, rfl, fun k => dictGet_dictUpdate payload hkeys inst.data k⟩

/-- C6 witness: the `go` command on `exampleInst` with payload `{n: "x"}`. -/
theorem C6_witness :
    (exampleInst.apply_command "go" [("n", .vStr "x")] ⟨"alice"⟩).1 = none ∧
    (exampleInst.apply_command "go" [("n", .vStr "x")] ⟨"alice"⟩).2.current_step = "b" := by
  have h := C6_apply_success exampleInst "go" [("n", .vStr "x")] ⟨"alice"⟩
    { from_step := "a", to_step := "b", command := "go" } rfl
    (fun g hg => nomatch hg) (by decide)
  exact ⟨h.1, h.2.1⟩

/-- C9: no aliasing between the live data bag and stored snapshots, as the
frame property a value-semantics embedding can state: `apply_command`
(hence any later payload merge), `rollback` and `rollforward` return the
checkpoint list — every stored `Checkpoint`, its `data` included —
unchanged, and `save_checkpoint` only appends the new snapshot. -/
theorem C9_no_checkpoint_mutation (inst : WorkflowInstance)
    (command label nid : String) (payload : Data) (actor : Actor) (now : Nat) :
    (inst.apply_command command payload actor).2.checkpoints = inst.checkpoints ∧
    (inst.rollback actor).2.checkpoints = inst.checkpoints ∧
    (inst.rollforward actor).2.checkpoints = inst.checkpoints ∧
    (inst.save_checkpoint label actor nid now).2.checkpoints =
      inst.checkpoints ++ [(inst.save_checkpoint label actor nid now).1] :=
  ⟨apply_command_checkpoints inst command payload actor,
   rollback_checkpoints inst actor,
   rollforward_checkpoints inst actor,
   rfl⟩

/-- An instance whose active checkpoint id is the empty string, which the
`rollback` truthiness test `if self.active_checkpoint_id:` treats as live. -/
def emptyIdInst : WorkflowInstance :=
  { id := "e1", name := "e", definition := exampleDef, current_step := "a",
    data := [], history := [],
    checkpoints :=
      [ { id := "", label := "l0", step := "a", data := [], created_at := 0 },
        { id := "b1", label := "l1", step := "c",
          data := [("k", .vInt 1)], created_at := 1 } ],
    active_checkpoint_id := some "" }

/-- C8 counterexample: `emptyIdInst`'s active checkpoint (id `""`) is
present among its checkpoints and is the earliest, so the claim requires
`rollback` to raise `NoAvailableCheckpoint` (already at earliest).  The
source's truthiness test treats the empty-string id as live instead:
`rollback` succeeds and restores the *latest* checkpoint. -/
theorem C8_counterexample :
    (emptyIdInst.rollback ⟨"a"⟩).1 = none ∧
    (emptyIdInst.rollback ⟨"a"⟩).2.active_checkpoint_id = some "b1" ∧
    (emptyIdInst.rollback ⟨"a"⟩).2.current_step = "c" :=
  ⟨rfl, rfl, rfl⟩

/-- C8 (amended): for every instance whose `active_checkpoint_id` is nil or
a *non-empty* id present among the checkpoints (Python truthiness makes an
empty-string active id behave as live), with positions read off the
`created_at`-sorted list exactly as the source does: rollback raises
`NoAvailableCheckpoint` when no checkpoints exist or the active checkpoint
is earliest, rollforward raises it when live or the active checkpoint is
latest, and otherwise each restores the adjacent sorted checkpoint —
rollback from live restoring the latest. -/
theorem C8_navigation (inst : WorkflowInstance) (a : Actor)
    (hpres : ∀ aid, inst.active_checkpoint_id = some aid →
      aid ≠ "" ∧ ∃ cp ∈ inst.checkpoints, cp.id = aid) :
    (inst.checkpoints = [] →
      inst.rollback a =
        (some (.noAvailableCheckpoint "Cannot rollback: no checkpoints exist."),
          inst)) ∧
    (∀ aid, inst.active_checkpoint_id = some aid →
      ∀ i, idxOfId aid inst.get_sorted_checkpoints = some i →
        (i = 0 →
          inst.rollback a =
            (some (.noAvailableCheckpoint
              "Cannot rollback: already at the earliest checkpoint."), inst)) ∧
        (i ≠ 0 →
          (inst.rollback a).1 = none ∧
          (inst.rollback a).2.current_step =
            (inst.get_sorted_checkpoints.getD (i - 1) default).step ∧
          (inst.rollback a).2.data =
            (inst.get_sorted_checkpoints.getD (i - 1) default).data ∧
          (inst.rollback a).2.active_checkpoint_id =
            some (inst.get_sorted_checkpoints.getD (i - 1) default).id)) ∧
    (inst.active_checkpoint_id = none → inst.checkpoints ≠ [] →
      (inst.rollback a).1 = none ∧
      (inst.rollback a).2.current_step =
        (inst.get_sorted_checkpoints.getD
          (inst.get_sorted_checkpoints.length - 1) default).step ∧
      (inst.rollback a).2.data =
        (inst.get_sorted_checkpoints.getD
          (inst.get_sorted_checkpoints.length - 1) default).data ∧
      (inst.rollback a).2.active_checkpoint_id =
        some (inst.get_sorted_checkpoints.getD
          (inst.get_sorted_checkpoints.length - 1) default).id) ∧
    (inst.active_checkpoint_id = none →
      inst.rollforward a =
        (some (.noAvailableCheckpoint
          "Cannot rollforward: current state is live, not at a checkpoint."),
          inst)) ∧
    (∀ aid, inst.active_checkpoint_id = some aid →
      ∀ i, idxOfId aid inst.get_sorted_checkpoints = some i →
        (i ≥ inst.get_sorted_checkpoints.length - 1 →
          inst.rollforward a =
            (some (.noAvailableCheckpoint
              "Cannot rollforward: already at the latest checkpoint."), inst)) ∧
        (i < inst.get_sorted_checkpoints.length - 1 →
          (inst.rollforward a).1 = none ∧
          (inst.rollforward a).2.current_step =
            (inst.get_sorted_checkpoints.getD (i + 1) default).step ∧
          (inst.rollforward a).2.data =
            (inst.get_sorted_checkpoints.getD (i + 1) default).data ∧
          (inst.rollforward a).2.active_checkpoint_id =
            some (inst.get_sorted_checkpoints.getD (i + 1) default).id)) := by
  refine ⟨fun hemp => rollback_no_checkpoints a hemp, ?_, ?_, ?_, ?_⟩
  · intro aid hact i hidx
    have hne := (hpres aid hact).1
    constructor
    · intro h0
      subst h0
      exact rollback_at_earliest a hact hne hidx
    · intro hi
      rw [rollback_spec_found a hact hne hidx hi]
      exact ⟨rfl, rfl, rfl, rfl⟩
  · intro hact hne
    rw [rollback_spec_live a hact hne]
    exact ⟨rfl, rfl, rfl, rfl⟩
  · intro hact
    exact rollforward_live a hact
  · intro aid hact i hidx
    constructor
    · intro hi
      exact rollforward_at_latest a hact hidx hi
    · intro hi
      rw [rollforward_spec_found a hact hidx hi]
      exact ⟨rfl, rfl, rfl, rfl⟩

/-- Two checkpoints with distinct non-empty ids for the C8 witness. -/
def twoCpInst : WorkflowInstance :=
  { id := "t1", name := "t", definition := exampleDef, current_step := "b",
    data := [("n", .vInt 2)], history := [],
    checkpoints :=
      [ { id := "x", label := "CP1", step := "a", data := [("n", .vInt 1)],
          created_at := 0 },
        { id := "y", label := "CP2", step := "b", data := [("n", .vInt 2)],
          created_at := 1 } ],
    active_checkpoint_id := some "y" }

/-- C8 witness: on `twoCpInst` (active at the latest checkpoint `y`),
rollback restores the adjacent earlier checkpoint `x` and rollforward
refuses with already-at-latest. -/
theorem C8_witness :
    ((twoCpInst.rollback ⟨"a"⟩).1 = none ∧
      (twoCpInst.rollback ⟨"a"⟩).2.active_checkpoint_id = some "x") ∧
    (twoCpInst.rollforward ⟨"a"⟩).1 =
      some (.noAvailableCheckpoint
        "Cannot rollforward: already at the latest checkpoint.") := by
  have hpres : ∀ aid, twoCpInst.active_checkpoint_id = some aid →
      aid ≠ "" ∧ ∃ cp ∈ twoCpInst.checkpoints, cp.id = aid := by
    intro aid h
    cases h
    exact ⟨by decide, twoCpInst.checkpoints.getD 1 default, by simp [twoCpInst], rfl⟩
  have h := C8_navigation twoCpInst ⟨"a"⟩ hpres
  have hroll := (h.2.1 "y" rfl 1 rfl).2 (by decide)
  have hfwd := (h.2.2.2.2 "y" rfl 1 rfl).1 (by decide)
  exact ⟨⟨hroll.1, hroll.2.2.2⟩, by rw [hfwd]⟩

/-- C10: the `created_at` ordering used by rollback/rollforward is stable on
equal timestamps: any two equal-timestamp checkpoints keep their insertion
order in `get_sorted_checkpoints` (as under Python's stable `sorted`), and
consequently, on an instance holding exactly two equal-timestamp
checkpoints and active at the later-saved one, rollback targets the
earlier-saved one. -/
theorem C10_stable_equal_timestamps (cp1 cp2 : Checkpoint)
    (heq : cp1.created_at = cp2.created_at) :
    (∀ inst : WorkflowInstance, List.Sublist [cp1, cp2] inst.checkpoints →
      List.Sublist [cp1, cp2] inst.get_sorted_checkpoints) ∧
    (∀ (inst : WorkflowInstance) (a : Actor),
      inst.checkpoints = [cp1, cp2] →
      inst.active_checkpoint_id = some cp2.id →
      cp2.id ≠ "" → cp1.id ≠ cp2.id →
      inst.get_sorted_checkpoints = [cp1, cp2] ∧
      (inst.rollback a).1 = none ∧
      (inst.rollback a).2.current_step = cp1.step ∧
      (inst.rollback a).2.data = cp1.data ∧
      (inst.rollback a).2.active_checkpoint_id = some cp1.id) := by
  have hle : cpLe cp1 cp2 := Nat.le_of_eq heq
  constructor
  · intro inst hsub
    exact List.pair_sublist_insertionSort hle hsub
  · intro inst a hcps hact hne2 hne
    have hsort : inst.get_sorted_checkpoints = [cp1, cp2] := by
      unfold WorkflowInstance.get_sorted_checkpoints
      rw [hcps]
      simp only [List.insertionSort, List.orderedInsert]
      rw [if_pos hle]
    have hidx : idxOfId cp2.id inst.get_sorted_checkpoints = some 1 := by
      rw [hsort, idxOfId, if_neg hne, idxOfId, if_pos rfl]
      rfl
    refine ⟨hsort, ?_⟩
    rw [rollback_spec_found a hact hne2 hidx (by decide)]
    rw [hsort]
    exact ⟨rfl, rfl, rfl, rfl⟩

/-- C10 witness: two checkpoints sharing `created_at = 5`. -/
theorem C10_witness :
    let cp1 : Checkpoint :=
      { id := "p", label := "P", step := "a", data := [], created_at := 5 }
    let cp2 : Checkpoint :=
      { id := "q", label := "Q", step := "b", data := [("n", .vInt 1)],
        created_at := 5 }
    let inst : WorkflowInstance :=
      { id := "w", name := "w", definition := exampleDef, current_step := "b",
        data := [("n", .vInt 1)], history := [], checkpoints := [cp1, cp2],
        active_checkpoint_id := some "q" }
    (inst.rollback ⟨"a"⟩).1 = none ∧
    (inst.rollback ⟨"a"⟩).2.current_step = "a" ∧
    (inst.rollback ⟨"a"⟩).2.active_checkpoint_id = some "p" := by
  intro cp1 cp2 inst
  have h := (C10_stable_equal_timestamps cp1 cp2 rfl).2 inst ⟨"a"⟩ rfl rfl
    (by decide) (by decide)
  exact ⟨h.2.1, h.2.2.1, h.2.2.2.2⟩

/-- Sorting preserves distinctness of checkpoint ids. -/
theorem sorted_ids_nodup (inst : WorkflowInstance)
    (h : (inst.checkpoints.map Checkpoint.id).Nodup) :
    (inst.get_sorted_checkpoints.map Checkpoint.id).Nodup :=
  ((List.perm_insertionSort cpLe inst.checkpoints).map Checkpoint.id).nodup_iff.mpr h

/-- Under distinct ids, a position holding a member's id holds the member. -/
theorem getD_eq_of_nodup_ids {l : List Checkpoint}
    (hnod : (l.map Checkpoint.id).Nodup) {cp : Checkpoint} (hmem : cp ∈ l)
    {i : Nat} (hi : i < l.length) (hid : (l.getD i default).id = cp.id) :
    l.getD i default = cp :=
  List.inj_on_of_nodup_map hnod (getD_mem_of_lt hi) hmem hid

/-- A live instance with one checkpoint whose data differs from the live
data: rollback succeeds, rollforward cannot return to the live state. -/
def liveInst : WorkflowInstance :=
  { id := "l1", name := "live", definition := exampleDef, current_step := "b",
    data := [("n", .vStr "live")], history := [],
    checkpoints := [ { id := "x", label := "CP", step := "a",
                       data := [("n", .vStr "old")], created_at := 0 } ],
    active_checkpoint_id := none }

/-- C5 counterexample: on `liveInst` (live state, one checkpoint), rollback
succeeds — so the claim requires the immediately following rollforward to
succeed and the composite to be the identity — but rollforward raises
`NoAvailableCheckpoint` and the active pointer has changed from `nil` to
the checkpoint's id. -/
theorem C5_counterexample :
    (liveInst.rollback ⟨"a"⟩).1 = none ∧
    ((liveInst.rollback ⟨"a"⟩).2.rollforward ⟨"a"⟩).1 =
      some (.noAvailableCheckpoint
        "Cannot rollforward: already at the latest checkpoint.") ∧
    (liveInst.rollback ⟨"a"⟩).2.active_checkpoint_id ≠
      liveInst.active_checkpoint_id :=
  ⟨rfl, rfl, by decide⟩

/-- C5 (amended): on an instance satisfying the spec's instance invariants
— pairwise-distinct checkpoint ids, and a non-nil (non-empty, per the
truthiness amendment of C8) active id whose checkpoint's step and data
coincide with the live ones — if rollback succeeds and nothing else
intervenes, the immediately following rollforward succeeds and the
composite is the identity on `(current_step, data, active_checkpoint_id)`. -/
theorem C5_rollback_rollforward_identity (inst : WorkflowInstance) (a : Actor)
    (hnodup : (inst.checkpoints.map Checkpoint.id).Nodup) (aid : String)
    (hact : inst.active_checkpoint_id = some aid) (hne : aid ≠ "")
    (cp : Checkpoint) (hmem : cp ∈ inst.checkpoints) (hid : cp.id = aid)
    (hstep : cp.step = inst.current_step) (hdata : cp.data = inst.data)
    (hsucc : (inst.rollback a).1 = none) :
    ((inst.rollback a).2.rollforward a).1 = none ∧
    ((inst.rollback a).2.rollforward a).2.current_step = inst.current_step ∧
    ((inst.rollback a).2.rollforward a).2.data = inst.data ∧
    ((inst.rollback a).2.rollforward a).2.active_checkpoint_id =
      inst.active_checkpoint_id := by
  have hnodS : (inst.get_sorted_checkpoints.map Checkpoint.id).Nodup :=
    sorted_ids_nodup inst hnodup
  have hmemS : cp ∈ inst.get_sorted_checkpoints :=
    (List.mem_insertionSort cpLe).mpr hmem
  obtain ⟨i, hidx⟩ := idxOfId_isSome_of_mem hmemS hid
  have hilen : i < inst.get_sorted_checkpoints.length := idxOfId_lt_length hidx
  have hi : i ≠ 0 := by
    intro h0
    subst h0
    rw [rollback_at_earliest a hact hne hidx] at hsucc
    simp at hsucc
  have hcpi : inst.get_sorted_checkpoints.getD i default = cp :=
    getD_eq_of_nodup_ids hnodS hmemS hilen (hid ▸ idxOfId_getD hidx)
  have hroll := rollback_spec_found a hact hne hidx hi
  set target := inst.get_sorted_checkpoints.getD (i - 1) default with htarget
  set inst' : WorkflowInstance := { inst with
      current_step := target.step
      data := target.data
      active_checkpoint_id := some target.id
      history := inst.history ++ [.stateRestored target.id a "rollback"] }
    with hinst'
  have hi1len : i - 1 < inst.get_sorted_checkpoints.length := by omega
  have hS' : inst'.get_sorted_checkpoints = inst.get_sorted_checkpoints := rfl
  have hact' : inst'.active_checkpoint_id = some target.id := rfl
  have hidx' : idxOfId target.id inst'.get_sorted_checkpoints = some (i - 1) := by
    rw [hS', htarget]
    exact idxOfId_getD_of_nodup hnodS hi1len
  have hi' : i - 1 < inst'.get_sorted_checkpoints.length - 1 := by
    rw [hS']
    omega
  have hfwd := rollforward_spec_found a hact' hidx' hi'
  rw [hroll]
  dsimp only
  rw [hfwd]
  dsimp only
  rw [hS', show i - 1 + 1 = i by omega, hcpi]
  exact ⟨rfl, hstep, hdata, by rw [hid, hact]⟩

/-- C5 witness: `twoCpInst` shifted to sit on its earlier checkpoint. -/
theorem C5_witness :
    let inst : WorkflowInstance :=
      { id := "t1", name := "t", definition := exampleDef, current_step := "b",
        data := [("n", .vInt 2)], history := [],
        checkpoints :=
          [ { id := "x", label := "CP1", step := "a", data := [("n", .vInt 1)],
              created_at := 0 },
            { id := "y", label := "CP2", step := "b", data := [("n", .vInt 2)],
              created_at := 1 } ],
        active_checkpoint_id := some "y" }
    ((inst.rollback ⟨"a"⟩).2.rollforward ⟨"a"⟩).1 = none ∧
    ((inst.rollback ⟨"a"⟩).2.rollforward ⟨"a"⟩).2.current_step = "b" ∧
    ((inst.rollback ⟨"a"⟩).2.rollforward ⟨"a"⟩).2.active_checkpoint_id = some "y" := by
  intro inst
  have h := C5_rollback_rollforward_identity inst ⟨"a"⟩ (by decide) "y" rfl
    (by decide) (inst.checkpoints.getD 1 default) (by simp [inst]) rfl rfl rfl rfl
  exact ⟨h.1, h.2.1, h.2.2.2⟩

/-- A successful `apply_command` leaves the live state with no active
checkpoint. -/
theorem apply_command_pair_active {inst inst2 : WorkflowInstance}
    {c : String} {p : Data} {a : Actor} {err : Option WorkflowError}
    (h : inst.apply_command c p a = (err, inst2)) (hnone : err = none) :
    inst2.active_checkpoint_id = none := by
  subst hnone
  unfold WorkflowInstance.apply_command at h
  cases hf : inst.definition.find_transition inst.current_step c with
  | none =>
      rw [hf] at h
      cases h
  | some t =>
      rw [hf] at h
      cases h
      rfl

/-- A command list as a sequence of engine operations. -/
def cmdOps (cmds : List (String × Data × Actor)) : List Op :=
  cmds.map (fun x => Op.cmd x.1 x.2.1 x.2.2)

/-- Running only commands never touches the checkpoint list. -/
theorem runOps_cmdOps_checkpoints (cmds : List (String × Data × Actor))
    (inst : WorkflowInstance) :
    (runOps inst (cmdOps cmds)).2.checkpoints = inst.checkpoints := by
  induction cmds generalizing inst with
  | nil => rfl
  | cons c rest ih =>
      simp only [cmdOps, List.map_cons, runOps, runOp]
      rcases h : inst.apply_command c.1 c.2.1 c.2.2 with ⟨err, inst2⟩
      have hcp : inst2.checkpoints = inst.checkpoints := by
        have hx := apply_command_checkpoints inst c.1 c.2.1 c.2.2
        rw [h] at hx
        exact hx
      cases err with
      | none =>
          dsimp only
          rw [show cmdOps rest = rest.map (fun x => Op.cmd x.1 x.2.1 x.2.2) from rfl]
            at ih
          rw [ih inst2, hcp]
      | some e =>
          dsimp only
          exact hcp

/-- A non-empty, fully successful command run ends live. -/
theorem runOps_cmdOps_active (cmds : List (String × Data × Actor))
    (inst : WorkflowInstance) (hne : cmds ≠ [])
    (hsucc : (runOps inst (cmdOps cmds)).1 = none) :
    (runOps inst (cmdOps cmds)).2.active_checkpoint_id = none := by
  induction cmds generalizing inst with
  | nil => exact absurd rfl hne
  | cons c rest ih =>
      simp only [cmdOps, List.map_cons, runOps, runOp] at hsucc ⊢
      rcases h : inst.apply_command c.1 c.2.1 c.2.2 with ⟨err, inst2⟩
      rw [h] at hsucc
      cases err with
      | none =>
          dsimp only at hsucc ⊢
          cases hrest : rest with
          | nil =>
              exact apply_command_pair_active h rfl
          | cons r rs =>
              have := ih inst2 (by simp [hrest])
              rw [show cmdOps rest = rest.map (fun x => Op.cmd x.1 x.2.1 x.2.2)
                from rfl] at this
              exact hrest ▸ this (hrest ▸ hsucc)
      | some e =>
          dsimp only at hsucc
          cases hsucc

/-- The sorted view only depends on the checkpoint field. -/
theorem get_sorted_congr {inst : WorkflowInstance} {l : List Checkpoint}
    (h : inst.checkpoints = l) :
    inst.get_sorted_checkpoints = l.insertionSort cpLe := by
  unfold WorkflowInstance.get_sorted_checkpoints
  rw [h]

/-- An instance already holding an older checkpoint `cp0` whose data differs
from the live data. -/
def preCpInst : WorkflowInstance :=
  { id := "p1", name := "p", definition := exampleDef, current_step := "a",
    data := [("k", .vInt 1)], history := [],
    checkpoints := [ { id := "cp0", label := "old", step := "a",
                       data := [("k", .vInt 0)], created_at := 0 } ],
    active_checkpoint_id := none }

/-- C4 counterexample: the claim quantifies over *any* finite sequence of
successful `apply_command` calls, including the empty one.  Saving `cp1`
on `preCpInst` (timestamps non-decreasing) and rolling back with zero
intervening commands restores the *older* checkpoint `cp0`: the data is
`{k: 0}` instead of the save-time `{k: 1}` and the active pointer is
`cp0`, not the saved checkpoint's id. -/
theorem C4_counterexample :
    ((preCpInst.save_checkpoint "CP" ⟨"bob"⟩ "cp1" 1).2.rollback ⟨"bob"⟩).1 = none ∧
    ((preCpInst.save_checkpoint "CP" ⟨"bob"⟩ "cp1" 1).2.rollback ⟨"bob"⟩).2.data =
      [("k", .vInt 0)] ∧
    preCpInst.data = [("k", .vInt 1)] ∧
    ((preCpInst.save_checkpoint "CP" ⟨"bob"⟩ "cp1" 1).2.rollback ⟨"bob"⟩).2.active_checkpoint_id =
      some "cp0" :=
  ⟨rfl, rfl, rfl, rfl⟩

/-- C4 (amended): on an instance whose checkpoint `created_at` values are
non-decreasing in insertion order and at most the save-time clock value:
`save_checkpoint`, then a *non-empty* finite sequence of successful
`apply_command` calls, then `rollback`, restores `current_step` and `data`
exactly to their save-time values and sets `active_checkpoint_id` to the
saved checkpoint's id. -/
theorem C4_roundtrip (inst : WorkflowInstance) (label nid : String)
    (bob : Actor) (t : Nat)
    (hsortedcps : List.Sorted cpLe inst.checkpoints)
    (hlate : ∀ c ∈ inst.checkpoints, c.created_at ≤ t)
    (cmds : List (String × Data × Actor)) (hne : cmds ≠ [])
    (hsucc : (runOps (inst.save_checkpoint label bob nid t).2 (cmdOps cmds)).1 = none) :
    ((runOps (inst.save_checkpoint label bob nid t).2 (cmdOps cmds)).2.rollback bob).1 =
      none ∧
    ((runOps (inst.save_checkpoint label bob nid t).2 (cmdOps cmds)).2.rollback bob).2.current_step =
      inst.current_step ∧
    ((runOps (inst.save_checkpoint label bob nid t).2 (cmdOps cmds)).2.rollback bob).2.data =
      inst.data ∧
    ((runOps (inst.save_checkpoint label bob nid t).2 (cmdOps cmds)).2.rollback bob).2.active_checkpoint_id =
      some nid := by
  set cp : Checkpoint := (inst.save_checkpoint label bob nid t).1 with hcp
  set instf : WorkflowInstance :=
    (runOps (inst.save_checkpoint label bob nid t).2 (cmdOps cmds)).2 with hinstf
  have hcpsf : instf.checkpoints = inst.checkpoints ++ [cp] :=
    runOps_cmdOps_checkpoints cmds (inst.save_checkpoint label bob nid t).2
  have hactf : instf.active_checkpoint_id = none :=
    runOps_cmdOps_active cmds (inst.save_checkpoint label bob nid t).2 hne hsucc
  have hnonemp : instf.checkpoints ≠ [] := by
    rw [hcpsf]
    simp
  have hsortedAll : List.Sorted cpLe (inst.checkpoints ++ [cp]) := by
    refine List.pairwise_append.mpr ⟨hsortedcps, List.pairwise_singleton _ _, ?_⟩
    intro x hx y hy
    rw [List.mem_singleton] at hy
    subst hy
    exact hlate x hx
  have hSf : instf.get_sorted_checkpoints = inst.checkpoints ++ [cp] := by
    rw [get_sorted_congr hcpsf]
    exact hsortedAll.insertionSort_eq
  have hlast :
      (inst.checkpoints ++ [cp]).getD ((inst.checkpoints ++ [cp]).length - 1) default = cp := by
    rw [List.length_append, List.length_singleton, Nat.add_sub_cancel]
    rw [List.getD_append_right _ _ _ _ (le_refl _)]
    simp
  rw [rollback_spec_live bob hactf hnonemp]
  dsimp only
  rw [hSf, hlast]
  exact ⟨rfl, rfl, rfl, rfl⟩

/-- C4 witness: `preCpInst`, one intervening successful command. -/
theorem C4_witness :
    ((runOps (preCpInst.save_checkpoint "CP" ⟨"bob"⟩ "cp1" 1).2
        (cmdOps [("go", [("n", .vStr "x")], ⟨"bob"⟩)])).2.rollback ⟨"bob"⟩).1 = none ∧
    ((runOps (preCpInst.save_checkpoint "CP" ⟨"bob"⟩ "cp1" 1).2
        (cmdOps [("go", [("n", .vStr "x")], ⟨"bob"⟩)])).2.rollback ⟨"bob"⟩).2.current_step = "a" ∧
    ((runOps (preCpInst.save_checkpoint "CP" ⟨"bob"⟩ "cp1" 1).2
        (cmdOps [("go", [("n", .vStr "x")], ⟨"bob"⟩)])).2.rollback ⟨"bob"⟩).2.data =
      [("k", .vInt 1)] ∧
    ((runOps (preCpInst.save_checkpoint "CP" ⟨"bob"⟩ "cp1" 1).2
        (cmdOps [("go", [("n", .vStr "x")], ⟨"bob"⟩)])).2.rollback ⟨"bob"⟩).2.active_checkpoint_id =
      some "cp1" := by
  have h := C4_roundtrip preCpInst "CP" "cp1" ⟨"bob"⟩ 1 (by decide) (by decide)
    [("go", [("n", .vStr "x")], ⟨"bob"⟩)] (by simp) rfl
  exact h

/-- Rollback with an empty-string active id on a non-empty checkpoint list
behaves as from live (Python truthiness): it restores the last sorted
checkpoint. -/
theorem rollback_spec_emptyid {inst : WorkflowInstance} (a : Actor)
    (hact : inst.active_checkpoint_id = some "")
    (hne : inst.checkpoints ≠ []) :
    inst.rollback a =
      (none, { inst with
        current_step :=
          (inst.get_sorted_checkpoints.getD
            (inst.get_sorted_checkpoints.length - 1) default).step
        data :=
          (inst.get_sorted_checkpoints.getD
            (inst.get_sorted_checkpoints.length - 1) default).data
        active_checkpoint_id :=
          some (inst.get_sorted_checkpoints.getD
            (inst.get_sorted_checkpoints.length - 1) default).id
        history := inst.history ++
          [.stateRestored
            (inst.get_sorted_checkpoints.getD
              (inst.get_sorted_checkpoints.length - 1) default).id a
            "rollback"] }) := by
  have hnonnil : ¬inst.get_sorted_checkpoints = [] :=
    fun he => hne ((get_sorted_eq_nil_iff inst).mp he)
  have hlen : inst.get_sorted_checkpoints.length ≠ 0 :=
    fun h0 => hnonnil (List.length_eq_zero.mp h0)
  unfold WorkflowInstance.rollback
  rw [if_neg hnonnil, hact]
  dsimp only
  rw [if_pos rfl]
  dsimp only
  rw [if_neg hlen]

/-- Rollback with a truthy active id absent from the checkpoints raises
`DomainException` and leaves the instance untouched. -/
theorem rollback_not_found {inst : WorkflowInstance} {aid : String} (a : Actor)
    (hact : inst.active_checkpoint_id = some aid) (hne : aid ≠ "")
    (hnonnil : inst.get_sorted_checkpoints ≠ [])
    (hidx : idxOfId aid inst.get_sorted_checkpoints = none) :
    inst.rollback a =
      (some (.domainException
        ("Active checkpoint ID \x27" ++ aid ++ "\x27 not found.")), inst) := by
  unfold WorkflowInstance.rollback
  rw [if_neg hnonnil, hact]
  dsimp only
  rw [if_neg hne, hidx]

/-- Rollforward with an active id but an empty checkpoint list raises
`NoAvailableCheckpoint`. -/
theorem rollforward_empty {inst : WorkflowInstance} {aid : String} (a : Actor)
    (hact : inst.active_checkpoint_id = some aid)
    (hnil : inst.get_sorted_checkpoints = []) :
    inst.rollforward a =
      (some (.noAvailableCheckpoint "Cannot rollforward: no checkpoints exist."), inst) := by
  unfold WorkflowInstance.rollforward
  rw [hact]
  dsimp only
  rw [if_pos hnil]

/-- Rollforward with an active id absent from the checkpoints raises
`DomainException` and leaves the instance untouched. -/
theorem rollforward_not_found {inst : WorkflowInstance} {aid : String} (a : Actor)
    (hact : inst.active_checkpoint_id = some aid)
    (hnonnil : inst.get_sorted_checkpoints ≠ [])
    (hidx : idxOfId aid inst.get_sorted_checkpoints = none) :
    inst.rollforward a =
      (some (.domainException
        ("Active checkpoint ID \x27" ++ aid ++ "\x27 not found.")), inst) := by
  unfold WorkflowInstance.rollforward
  rw [hact]
  dsimp only
  rw [if_neg hnonnil, hidx]

/-- Rollback either fails leaving the instance unchanged, or restores the
step of one of the stored checkpoints, touching neither the checkpoint list
nor the definition. -/
theorem rollback_shape (inst : WorkflowInstance) (a : Actor) :
    (inst.rollback a).2 = inst ∨
    ∃ cp ∈ inst.checkpoints,
      (inst.rollback a).2.current_step = cp.step ∧
      (inst.rollback a).2.checkpoints = inst.checkpoints ∧
      (inst.rollback a).2.definition = inst.definition := by
  by_cases hemp : inst.checkpoints = []
  · rw [rollback_no_checkpoints a hemp]
    exact Or.inl rfl
  · have hlen : inst.get_sorted_checkpoints.length ≠ 0 := by
      intro h0
      exact hemp ((get_sorted_eq_nil_iff inst).mp (List.length_eq_zero.mp h0))
    have hmem_of : ∀ j, j < inst.get_sorted_checkpoints.length →
        inst.get_sorted_checkpoints.getD j default ∈ inst.checkpoints :=
      fun j hj => (List.mem_insertionSort cpLe).mp (getD_mem_of_lt hj)
    cases hact : inst.active_checkpoint_id with
    | none =>
        rw [rollback_spec_live a hact hemp]
        exact Or.inr ⟨_, hmem_of _ (by omega), rfl, rfl, rfl⟩
    | some aid =>
        by_cases haid : aid = ""
        · subst haid
          rw [rollback_spec_emptyid a hact hemp]
          exact Or.inr ⟨_, hmem_of _ (by omega), rfl, rfl, rfl⟩
        · cases hidx : idxOfId aid inst.get_sorted_checkpoints with
          | none =>
              rw [rollback_not_found a hact haid
                (fun he => hemp ((get_sorted_eq_nil_iff inst).mp he)) hidx]
              exact Or.inl rfl
          | some i =>
              by_cases hi : i = 0
              · subst hi
                rw [rollback_at_earliest a hact haid hidx]
                exact Or.inl rfl
              · rw [rollback_spec_found a hact haid hidx hi]
                have := idxOfId_lt_length hidx
                exact Or.inr ⟨_, hmem_of _ (by omega), rfl, rfl, rfl⟩

/-- Rollforward either fails leaving the instance unchanged, or restores
the step of one of the stored checkpoints, touching neither the checkpoint
list nor the definition. -/
theorem rollforward_shape (inst : WorkflowInstance) (a : Actor) :
    (inst.rollforward a).2 = inst ∨
    ∃ cp ∈ inst.checkpoints,
      (inst.rollforward a).2.current_step = cp.step ∧
      (inst.rollforward a).2.checkpoints = inst.checkpoints ∧
      (inst.rollforward a).2.definition = inst.definition := by
  cases hact : inst.active_checkpoint_id with
  | none =>
      rw [rollforward_live a hact]
      exact Or.inl rfl
  | some aid =>
      by_cases hnil : inst.get_sorted_checkpoints = []
      · rw [rollforward_empty a hact hnil]
        exact Or.inl rfl
      · cases hidx : idxOfId aid inst.get_sorted_checkpoints with
        | none =>
            rw [rollforward_not_found a hact hnil hidx]
            exact Or.inl rfl
        | some i =>
            by_cases hi : i ≥ inst.get_sorted_checkpoints.length - 1
            · rw [rollforward_at_latest a hact hidx hi]
              exact Or.inl rfl
            · rw [rollforward_spec_found a hact hidx (by omega)]
              have hlt := idxOfId_lt_length hidx
              have hbound : i + 1 < inst.get_sorted_checkpoints.length := by omega
              have hmem : inst.get_sorted_checkpoints.getD (i + 1) default ∈
                  inst.checkpoints :=
                (List.mem_insertionSort cpLe).mp (getD_mem_of_lt hbound)
              exact Or.inr ⟨_, hmem, rfl, rfl, rfl⟩

/-- A found transition is a declared one matching its lookup key. -/
theorem find_transition_mem {d : WorkflowDefinition} {s c : String} {t : Transition}
    (h : d.find_transition s c = some t) :
    t ∈ d.transitions ∧ t.from_step = s ∧ t.command = c := by
  unfold WorkflowDefinition.find_transition at h
  have hmem := List.mem_of_find?_eq_some h
  have hp := List.find?_some h
  simp only [Bool.and_eq_true, decide_eq_true_eq] at hp
  exact ⟨hmem, hp.1, hp.2⟩

/-- The step-membership invariant: the current step and every stored
checkpoint's step belong to the definition's step set. -/
def StepInv (d : WorkflowDefinition) (inst : WorkflowInstance) : Prop :=
  inst.current_step ∈ d.steps ∧ ∀ cp ∈ inst.checkpoints, cp.step ∈ d.steps

/-- One engine operation preserves the step-membership invariant, provided
every declared transition's endpoints lie in the step set. -/
theorem runOp_preserves (d : WorkflowDefinition)
    (hclosed : ∀ t ∈ d.transitions, t.from_step ∈ d.steps ∧ t.to_step ∈ d.steps)
    (inst : WorkflowInstance) (hdef : inst.definition = d)
    (hinv : StepInv d inst) (op : Op) :
    (runOp inst op).2.definition = d ∧ StepInv d (runOp inst op).2 := by
  cases op with
  | cmd c p a =>
      show (inst.apply_command c p a).2.definition = d ∧
        StepInv d (inst.apply_command c p a).2
      unfold WorkflowInstance.apply_command
      cases hf : inst.definition.find_transition inst.current_step c with
      | none => exact ⟨hdef, hinv⟩
      | some t =>
          rw [hdef] at hf
          refine ⟨hdef, ?_, hinv.2⟩
          exact (hclosed t (find_transition_mem hf).1).2
  | save l a i t =>
      refine ⟨hdef, hinv.1, ?_⟩
      intro cp hcp
      rcases List.mem_append.mp hcp with hold | hnew
      · exact hinv.2 cp hold
      · rw [List.mem_singleton] at hnew
        subst hnew
        exact hinv.1
  | roll a =>
      rcases rollback_shape inst a with heq | ⟨cp, hcp, hstep, hcps, hd⟩
      · rw [show runOp inst (.roll a) = inst.rollback a from rfl, heq]
        exact ⟨hdef, hinv⟩
      · refine ⟨hd.trans hdef, ?_, ?_⟩
        · rw [show runOp inst (.roll a) = inst.rollback a from rfl, hstep]
          exact hinv.2 cp hcp
        · intro cp' hcp'
          rw [show runOp inst (.roll a) = inst.rollback a from rfl, hcps] at hcp'
          exact hinv.2 cp' hcp'
  | rollf a =>
      rcases rollforward_shape inst a with heq | ⟨cp, hcp, hstep, hcps, hd⟩
      · rw [show runOp inst (.rollf a) = inst.rollforward a from rfl, heq]
        exact ⟨hdef, hinv⟩
      · refine ⟨hd.trans hdef, ?_, ?_⟩
        · rw [show runOp inst (.rollf a) = inst.rollforward a from rfl, hstep]
          exact hinv.2 cp hcp
        · intro cp' hcp'
          rw [show runOp inst (.rollf a) = inst.rollforward a from rfl, hcps] at hcp'
          exact hinv.2 cp' hcp'

/-- Any operation sequence preserves the step-membership invariant. -/
theorem runOps_preserves (d : WorkflowDefinition)
    (hclosed : ∀ t ∈ d.transitions, t.from_step ∈ d.steps ∧ t.to_step ∈ d.steps)
    (ops : List Op) :
    ∀ inst : WorkflowInstance, inst.definition = d → StepInv d inst →
      (runOps inst ops).2.definition = d ∧ StepInv d (runOps inst ops).2 := by
  induction ops with
  | nil => exact fun inst hdef hinv => ⟨hdef, hinv⟩
  | cons op rest ih =>
      intro inst hdef hinv
      rw [runOps]
      rcases hstep : runOp inst op with ⟨err, inst2⟩
      have hp := runOp_preserves d hclosed inst hdef hinv op
      rw [hstep] at hp
      cases err with
      | none =>
          dsimp only
          exact ih inst2 hp.1 hp.2
      | some e =>
          dsimp only
          exact hp

/-- C3 counterexample: `badDef` passes validation (its transition endpoint
`b` escapes `steps = {a}` unchecked), `badInst` starts in the initial step,
and one successful `apply_command` leaves `current_step ∉ steps`. -/
theorem C3_counterexample :
    badDef.is_valid = Except.ok true ∧
    badInst.current_step = badDef.initial_step ∧
    (runOps badInst [Op.cmd "go" [] ⟨"alice"⟩]).1 = none ∧
    (runOps badInst [Op.cmd "go" [] ⟨"alice"⟩]).2.current_step ∉ badDef.steps := by
  refine ⟨rfl, rfl, rfl, ?_⟩
  show ("b" : String) ∉ badDef.steps
  decide

/-- C3 (amended): for a definition that passes validation *and whose
transitions all have `from_step` and `to_step` inside `steps`* (the part
the counterexample shows validation does not enforce), every instance
constructed in the initial step satisfies `current_step ∈ steps` after any
finite sequence of successful operations. -/
theorem C3_step_membership (d : WorkflowDefinition) (inst0 : WorkflowInstance)
    (hvalid : d.is_valid = Except.ok true)
    (hclosed : ∀ t ∈ d.transitions, t.from_step ∈ d.steps ∧ t.to_step ∈ d.steps)
    (hdef : inst0.definition = d)
    (hinit : inst0.current_step = d.initial_step)
    (hcps : inst0.checkpoints = [])
    (ops : List Op) (hsucc : (runOps inst0 ops).1 = none) :
    (runOps inst0 ops).2.current_step ∈ d.steps := by
  have hinit_mem : d.initial_step ∈ d.steps := ((is_valid_ok_iff d).mp hvalid).2.2
  have hinv0 : StepInv d inst0 := by
    refine ⟨hinit ▸ hinit_mem, ?_⟩
    intro cp hcp
    rw [hcps] at hcp
    cases hcp
  exact (runOps_preserves d hclosed ops inst0 hdef hinv0).2.1

/-- C3 witness: a full run (command, checkpoint, rollback, rollforward is
not needed for success) on `exampleInst`. -/
theorem C3_witness :
    (runOps exampleInst
      [Op.cmd "go" [("n", .vStr "x")] ⟨"alice"⟩,
       Op.save "CP" ⟨"alice"⟩ "u1" 1,
       Op.cmd "fin" [] ⟨"alice"⟩]).2.current_step ∈ exampleDef.steps :=
  C3_step_membership exampleDef exampleInst rfl (by decide) rfl rfl rfl
    [Op.cmd "go" [("n", .vStr "x")] ⟨"alice"⟩,
     Op.save "CP" ⟨"alice"⟩ "u1" 1,
     Op.cmd "fin" [] ⟨"alice"⟩] rfl

/-- C7: with no transition matching `(current_step, command)`,
`apply_command` raises the invalid-transition error (`DomainException`
carrying the command and current step) and returns the instance exactly as
it was: `current_step`, `data`, `history`, `checkpoints` and
`active_checkpoint_id` are all the pre-call values. -/
theorem C7_invalid_transition (inst : WorkflowInstance) (command : String)
    (payload : Data) (actor : Actor)
    (h : inst.definition.find_transition inst.current_step command = none) :
    inst.apply_command command payload actor =
      (some (.domainException
        ("Invalid command \x27" ++ command ++ "\x27 for step \x27"
          ++ inst.current_step ++ "\x27")), inst) := by
  unfold WorkflowInstance.apply_command
  rw [h]

/-- C7 witness: the unknown command `zap` on `exampleInst`. -/
theorem C7_witness :
    exampleInst.apply_command "zap" [] ⟨"alice"⟩ =
      (some (.domainException "Invalid command \x27zap\x27 for step \x27a\x27"),
        exampleInst) :=
  C7_invalid_transition exampleInst "zap" [] ⟨"alice"⟩ rfl

end Workflows
